import Mathlib

/-!
Verification of the rate limiter and view-deduplication tracker of the
blog-portal repository.

The request handlers (`src/app/api/auth/[...nextauth]/route.ts`,
`src/app/api/comments/route.ts`, `src/app/api/likes/route.ts`,
`src/app/api/posts/[slug]/route.ts`) are embedded from their source.
The rate-limit library `src/lib/rate-limit.ts` is not part of the
source tree we were given (only its callers are), so `checkRateLimit`,
`RATE_LIMITS`, `getClientIp` and `rateLimitHeaders` are modelled from
the specification (spec sections 4.1 and 6).

Timestamps are natural numbers; the rate limiter counts in seconds,
the view tracker in milliseconds, matching the respective sources.
-/

namespace BlogPortal

/-- Association-list lookup, modelling `Map.get` / `Map.has` on a JS `Map`
with string keys: returns the value of the first entry whose key matches. -/
def lookupE {β : Type} (k : String) : List (String × β) → Option β
  | [] => none
  | (k', v) :: rest => if k' = k then some v else lookupE k rest

/-- Association-list update, modelling `Map.set`: replaces the value of an
existing key in place, otherwise appends the new entry at the end. -/
def setE {β : Type} (k : String) (v : β) : List (String × β) → List (String × β)
  | [] => [(k, v)]
  | (k', v') :: rest => if k' = k then (k, v) :: rest else (k', v') :: setE k v rest

@[simp] theorem lookupE_setE_self {β : Type} (k : String) (v : β) (m : List (String × β)) :
    lookupE k (setE k v m) = some v := by
  induction m with
  | nil => simp [lookupE, setE]
  | cons hd tl ih =>
    by_cases h : hd.1 = k
    · simp [setE, lookupE, h]
    · simp [setE, lookupE, h, ih]

theorem lookupE_setE_ne {β : Type} (k k' : String) (v : β) (m : List (String × β))
    (h : k' ≠ k) : lookupE k' (setE k v m) = lookupE k' m := by
  have h' : ¬ k = k' := fun hh => h hh.symm
  induction m with
  | nil => simp [lookupE, setE, h']
  | cons hd tl ih =>
    by_cases hk : hd.1 = k
    · simp [setE, lookupE, hk, h']
    · by_cases hk' : hd.1 = k'
      · simp [setE, lookupE, hk, hk', h]
      · simp [setE, lookupE, hk, hk', ih]

/-- Modelled from the spec: `RateLimitPolicy` (spec section 3), an immutable
pair of `maxRequests` and `windowSeconds`. The library `src/lib/rate-limit.ts`
is missing from the source tree. -/
structure RateLimitPolicy where
  maxRequests : Nat
  windowSeconds : Nat
deriving DecidableEq, Repr

/-- Modelled from the spec: `RateLimitEntry` (spec section 3), the per-key
abuse-tracking state: `count` requests observed since `windowStart`. -/
structure RateLimitEntry where
  count : Nat
  windowStart : Nat
deriving DecidableEq, Repr

/-- Modelled from the spec: the rate limiter result contract (spec section
4.1): `remaining = max(0, maxRequests - count)` and
`resetIn = windowSeconds - (now - windowStart)`. `resetIn` is an integer so
that the spec's requirement `resetIn >= 0` is a genuine statement. -/
structure RateLimitResult where
  success : Bool
  remaining : Nat
  resetIn : Int
deriving DecidableEq, Repr

/-- The process-wide rate-limit store: key to entry. -/
abbrev RateLimitStore : Type := List (String × RateLimitEntry)

/-- Modelled from the spec: step 1 of the `checkRateLimit` algorithm (spec
section 4.1). A missing entry, or one whose window has elapsed
(`now - windowStart >= windowSeconds`), is treated as a fresh window with
`count = 0`, `windowStart = now`; otherwise the stored entry is used. -/
def effectiveEntry (store : RateLimitStore) (now : Nat) (key : String)
    (policy : RateLimitPolicy) : RateLimitEntry :=
  match lookupE key store with
  | some e => if policy.windowSeconds ≤ now - e.windowStart then ⟨0, now⟩ else e
  | none => ⟨0, now⟩

/-- Modelled from the spec: the fixed-window algorithm of `checkRateLimit`
(spec section 4.1). Step 2: if `count >= maxRequests`, deny and leave the
store unchanged, with `resetIn = windowSeconds - (now - windowStart)`.
Step 3: otherwise increment the count, persist, and allow, with
`remaining = max(0, maxRequests - count)` for the persisted count. Returns
the result together with the updated store. -/
def checkRateLimit (store : RateLimitStore) (now : Nat) (key : String)
    (policy : RateLimitPolicy) : RateLimitResult × RateLimitStore :=
  if policy.maxRequests ≤ (effectiveEntry store now key policy).count then
    (⟨false, policy.maxRequests - (effectiveEntry store now key policy).count,
      (policy.windowSeconds : Int) -
        ((now : Int) - ((effectiveEntry store now key policy).windowStart : Int))⟩,
     store)
  else
    (⟨true, policy.maxRequests - ((effectiveEntry store now key policy).count + 1),
      (policy.windowSeconds : Int) -
        ((now : Int) - ((effectiveEntry store now key policy).windowStart : Int))⟩,
     setE key ⟨(effectiveEntry store now key policy).count + 1,
               (effectiveEntry store now key policy).windowStart⟩ store)

/-- An entry inside its active window is taken as-is by step 1. -/
theorem effectiveEntry_inWindow (store : RateLimitStore) (now : Nat) (key : String)
    (policy : RateLimitPolicy) (k t0 : Nat)
    (hlk : lookupE key store = some ⟨k, t0⟩)
    (hlo : t0 ≤ now) (hhi : now < t0 + policy.windowSeconds) :
    effectiveEntry store now key policy = ⟨k, t0⟩ := by
  have hfresh : ¬ policy.windowSeconds ≤ now - t0 := by omega
  simp [effectiveEntry, hlk, hfresh]

/-- A denied call leaves the store untouched. -/
theorem checkRateLimit_fail_store (store : RateLimitStore) (now : Nat) (key : String)
    (policy : RateLimitPolicy)
    (h : (checkRateLimit store now key policy).1.success = false) :
    (checkRateLimit store now key policy).2 = store := by
  by_cases hc : policy.maxRequests ≤ (effectiveEntry store now key policy).count
  · simp [checkRateLimit, hc]
  · simp [checkRateLimit, hc] at h

/-- Run `checkRateLimit` for the same key at a list of successive times,
collecting the `success` flags. -/
def runCalls (policy : RateLimitPolicy) (key : String) :
    List Nat → RateLimitStore → List Bool × RateLimitStore
  | [], s => ([], s)
  | t :: ts, s =>
    let r := checkRateLimit s t key policy
    let rest := runCalls policy key ts r.2
    (r.1.success :: rest.1, rest.2)

/-- One in-window call on an existing entry: if the count is below the limit
the call succeeds and the count advances; otherwise it is denied and the
store is untouched. -/
theorem checkRateLimit_inWindow (store : RateLimitStore) (now : Nat) (key : String)
    (policy : RateLimitPolicy) (k t0 : Nat)
    (hlk : lookupE key store = some ⟨k, t0⟩)
    (hlo : t0 ≤ now) (hhi : now < t0 + policy.windowSeconds) :
    checkRateLimit store now key policy =
      if policy.maxRequests ≤ k then
        (⟨false, policy.maxRequests - k,
          (policy.windowSeconds : Int) - ((now : Int) - (t0 : Int))⟩, store)
      else
        (⟨true, policy.maxRequests - (k + 1),
          (policy.windowSeconds : Int) - ((now : Int) - (t0 : Int))⟩,
         setE key ⟨k + 1, t0⟩ store) := by
  have heff := effectiveEntry_inWindow store now key policy k t0 hlk hlo hhi
  by_cases hfull : policy.maxRequests ≤ k
  · simp [checkRateLimit, heff, hfull]
  · simp [checkRateLimit, heff, hfull]

/-- Auxiliary induction for P1: starting from an entry `⟨k, t0⟩` with
`k ≤ N`, a run of `N - k + 1` in-window calls yields `N - k` successes
followed by one denial. -/
theorem runCalls_fill (policy : RateLimitPolicy) (key : String) (t0 : Nat) :
    ∀ (ts : List Nat) (store : RateLimitStore) (k : Nat),
      lookupE key store = some ⟨k, t0⟩ →
      (∀ t ∈ ts, t0 ≤ t ∧ t < t0 + policy.windowSeconds) →
      k ≤ policy.maxRequests →
      ts.length = (policy.maxRequests - k) + 1 →
      (runCalls policy key ts store).1 =
        List.replicate (policy.maxRequests - k) true ++ [false] := by
  intro ts
  induction ts with
  | nil => intro store k _ _ _ hlen; simp at hlen
  | cons t ts ih =>
    intro store k hlk hts hk hlen
    obtain ⟨hlo, hhi⟩ := hts t (List.mem_cons_self t ts)
    have hstep := checkRateLimit_inWindow store t key policy k t0 hlk hlo hhi
    by_cases hfull : policy.maxRequests ≤ k
    · have hEq : k = policy.maxRequests := le_antisymm hk hfull
      have hz : policy.maxRequests - k = 0 := by omega
      have hts0 : ts = [] := by
        have : ts.length = 0 := by simpa [hz] using hlen
        exact List.length_eq_zero.mp this
      subst hts0
      simp [runCalls, hstep, hfull, hz]
    · push_neg at hfull
      have hrec := ih (setE key ⟨k + 1, t0⟩ store) (k + 1)
        (lookupE_setE_self key ⟨k + 1, t0⟩ store)
        (fun t' ht' => hts t' (List.mem_cons_of_mem t ht'))
        (by omega)
        (by simp at hlen; omega)
      have hsucc : policy.maxRequests - k = (policy.maxRequests - (k + 1)) + 1 := by omega
      simp only [runCalls, hstep, if_neg (not_le.mpr hfull)]
      simp [hrec, hsucc, List.replicate_succ]

/-- C1 (P1, window admission): with no prior entry for the key, a sequence of
`maxRequests + 1` calls, all within less than `windowSeconds` of the first
call, yields `maxRequests` successes followed by one denial. -/
theorem checkRateLimit_window_admission (policy : RateLimitPolicy) (key : String)
    (store : RateLimitStore) (t0 : Nat) (rest : List Nat)
    (habs : lookupE key store = none)
    (hts : ∀ t ∈ (t0 :: rest), t0 ≤ t ∧ t < t0 + policy.windowSeconds)
    (hlen : (t0 :: rest).length = policy.maxRequests + 1) :
    (runCalls policy key (t0 :: rest) store).1 =
      List.replicate policy.maxRequests true ++ [false] := by
  have hfirst : checkRateLimit store t0 key policy =
      if policy.maxRequests ≤ 0 then
        (⟨false, policy.maxRequests, (policy.windowSeconds : Int)⟩, store)
      else
        (⟨true, policy.maxRequests - 1, (policy.windowSeconds : Int)⟩,
         setE key ⟨1, t0⟩ store) := by
    have heff : effectiveEntry store t0 key policy = ⟨0, t0⟩ := by
      simp [effectiveEntry, habs]
    by_cases h0 : policy.maxRequests ≤ 0
    · simp [checkRateLimit, heff, h0]
    · simp [checkRateLimit, heff, h0]
  by_cases h0 : policy.maxRequests = 0
  · have hrest : rest = [] := by
      have : rest.length = 0 := by simp at hlen; omega
      exact List.length_eq_zero.mp this
    subst hrest
    simp [runCalls, hfirst, h0]
  · have hpos : ¬ policy.maxRequests ≤ 0 := by omega
    have hrec := runCalls_fill policy key t0 rest (setE key ⟨1, t0⟩ store) 1
      (lookupE_setE_self key ⟨1, t0⟩ store)
      (fun t' ht' => hts t' (List.mem_cons_of_mem t0 ht'))
      (by omega)
      (by simp at hlen ⊢; omega)
    simp only [runCalls, hfirst, if_neg hpos]
    have hsucc : policy.maxRequests = (policy.maxRequests - 1) + 1 := by omega
    simp [hrec]
    rw [hsucc]
    simp [List.replicate_succ]

/-- Witness for C1: policy `{maxRequests := 2, windowSeconds := 60}`, calls at
times 100, 110, 120 from an empty store give `[true, true, false]`. -/
theorem checkRateLimit_window_admission_witness :
    (runCalls ⟨2, 60⟩ "auth:1.2.3.4" [100, 110, 120] []).1 =
      List.replicate 2 true ++ [false] :=
  checkRateLimit_window_admission ⟨2, 60⟩ "auth:1.2.3.4" [] 100 [110, 120]
    (by decide) (by decide) (by decide)

/-- C8 (P4): a denied call inside an active window reports
`resetIn = windowSeconds - (now - windowStart)`, which is never negative,
leaves the store untouched, and across later denied calls in the same
window `resetIn` is non-increasing as time advances. -/
theorem checkRateLimit_resetIn_denied (store : RateLimitStore) (now : Nat) (key : String)
    (policy : RateLimitPolicy) (e : RateLimitEntry)
    (hlk : lookupE key store = some e)
    (hst : e.windowStart ≤ now)
    (hact : now - e.windowStart < policy.windowSeconds)
    (hden : policy.maxRequests ≤ e.count) :
    (checkRateLimit store now key policy).1.success = false ∧
    (checkRateLimit store now key policy).1.resetIn =
      (policy.windowSeconds : Int) - ((now : Int) - (e.windowStart : Int)) ∧
    0 ≤ (checkRateLimit store now key policy).1.resetIn ∧
    (checkRateLimit store now key policy).2 = store ∧
    (∀ now2 : Nat, now ≤ now2 → now2 - e.windowStart < policy.windowSeconds →
      (checkRateLimit (checkRateLimit store now key policy).2 now2 key policy).1.success
        = false ∧
      (checkRateLimit (checkRateLimit store now key policy).2 now2 key policy).1.resetIn ≤
        (checkRateLimit store now key policy).1.resetIn) := by
  have heff : effectiveEntry store now key policy = e := by
    have hfresh : ¬ policy.windowSeconds ≤ now - e.windowStart := by omega
    simp [effectiveEntry, hlk, hfresh]
  have hcall : checkRateLimit store now key policy =
      (⟨false, policy.maxRequests - e.count,
        (policy.windowSeconds : Int) - ((now : Int) - (e.windowStart : Int))⟩, store) := by
    simp [checkRateLimit, heff, hden]
  refine ⟨by rw [hcall], by rw [hcall], ?_, by rw [hcall], ?_⟩
  · rw [hcall]
    show (0 : Int) ≤ (policy.windowSeconds : Int) - ((now : Int) - (e.windowStart : Int))
    omega
  · intro now2 h12 hact2
    have hst2 : e.windowStart ≤ now2 := le_trans hst h12
    have heff2 : effectiveEntry store now2 key policy = e := by
      have hfresh2 : ¬ policy.windowSeconds ≤ now2 - e.windowStart := by omega
      simp [effectiveEntry, hlk, hfresh2]
    have hcall2 : checkRateLimit store now2 key policy =
        (⟨false, policy.maxRequests - e.count,
          (policy.windowSeconds : Int) - ((now2 : Int) - (e.windowStart : Int))⟩, store) := by
      simp [checkRateLimit, heff2, hden]
    rw [hcall, hcall2]
    refine ⟨rfl, ?_⟩
    show (policy.windowSeconds : Int) - ((now2 : Int) - (e.windowStart : Int)) ≤
      (policy.windowSeconds : Int) - ((now : Int) - (e.windowStart : Int))
    omega

/-- Witness for C8: key `"auth:9.9.9.9"` with entry `{count 5, windowStart 100}`
under policy `{5, 60}`, denied at time 130 with `resetIn = 30`. -/
theorem checkRateLimit_resetIn_denied_witness :
    (checkRateLimit [("auth:9.9.9.9", ⟨5, 100⟩)] 130 "auth:9.9.9.9" ⟨5, 60⟩).1.success
      = false ∧
    (checkRateLimit [("auth:9.9.9.9", ⟨5, 100⟩)] 130 "auth:9.9.9.9" ⟨5, 60⟩).1.resetIn =
      ((60 : Nat) : Int) - (((130 : Nat) : Int) - (((100 : Nat) : Int))) ∧
    0 ≤ (checkRateLimit [("auth:9.9.9.9", ⟨5, 100⟩)] 130 "auth:9.9.9.9" ⟨5, 60⟩).1.resetIn ∧
    (checkRateLimit [("auth:9.9.9.9", ⟨5, 100⟩)] 130 "auth:9.9.9.9" ⟨5, 60⟩).2 =
      [("auth:9.9.9.9", ⟨5, 100⟩)] ∧
    (∀ now2 : Nat, 130 ≤ now2 → now2 - (⟨5, 100⟩ : RateLimitEntry).windowStart < 60 →
      (checkRateLimit
          (checkRateLimit [("auth:9.9.9.9", ⟨5, 100⟩)] 130 "auth:9.9.9.9" ⟨5, 60⟩).2
          now2 "auth:9.9.9.9" ⟨5, 60⟩).1.success = false ∧
      (checkRateLimit
          (checkRateLimit [("auth:9.9.9.9", ⟨5, 100⟩)] 130 "auth:9.9.9.9" ⟨5, 60⟩).2
          now2 "auth:9.9.9.9" ⟨5, 60⟩).1.resetIn ≤
        (checkRateLimit [("auth:9.9.9.9", ⟨5, 100⟩)] 130 "auth:9.9.9.9" ⟨5, 60⟩).1.resetIn) :=
  checkRateLimit_resetIn_denied [("auth:9.9.9.9", ⟨5, 100⟩)] 130 "auth:9.9.9.9" ⟨5, 60⟩
    ⟨5, 100⟩ (by decide) (by decide) (by decide) (by decide)

/-- Modelled from the spec: the policy table of section 4.1 — authentication
5 requests per 60 seconds, comment creation 10 per 60, like toggling 30
per 60 — exposed as `RATE_LIMITS.auth` / `.comments` / `.likes` as in the
callers of the missing `src/lib/rate-limit.ts`. -/
structure RateLimits where
  auth : RateLimitPolicy
  comments : RateLimitPolicy
  likes : RateLimitPolicy

def RATE_LIMITS : RateLimits := ⟨⟨5, 60⟩, ⟨10, 60⟩, ⟨30, 60⟩⟩

/-- JS `s.split(",")[0]`: the prefix of `s` before the first comma (the
whole string when it has no comma). -/
def firstCommaField (s : String) : String :=
  ⟨s.data.takeWhile (fun c => !(c = ','))⟩

/-- JS `s.trim()`: strip leading and trailing whitespace. -/
def jsTrim (s : String) : String :=
  ⟨((s.data.dropWhile Char.isWhitespace).reverse.dropWhile Char.isWhitespace).reverse⟩

/-- Modelled from the spec (section 6): the client IP is the first entry of
the `X-Forwarded-For` header, trimmed, or the sentinel `"unknown"` when the
header is absent; identical to the inline extraction
`forwarded.split(",")[0].trim()` in `src/app/api/posts/[slug]/route.ts`. -/
def getClientIp (forwarded : Option String) : String :=
  match forwarded with
  | some f => jsTrim (firstCommaField f)
  | none => "unknown"

/-- Modelled from the spec (section 6): standard rate-limit headers derived
from the result's `remaining` and `resetIn`. -/
def rateLimitHeaders (r : RateLimitResult) : List (String × String) :=
  [("X-RateLimit-Remaining", toString r.remaining),
   ("X-RateLimit-Reset", toString r.resetIn)]

/-- A minimal HTTP response: status code and headers. -/
structure HttpResponse where
  status : Nat
  headers : List (String × String)
deriving DecidableEq, Repr

/-- Outcome of the authentication `POST` handler: the response, the updated
rate-limit store, and whether the request was delegated to the NextAuth
sign-in handler. -/
structure AuthPostResult where
  resp : HttpResponse
  store : RateLimitStore
  delegated : Bool
deriving DecidableEq, Repr

/-- The `POST` handler of `src/app/api/auth/[...nextauth]/route.ts`: rate
limit by IP under `RATE_LIMITS.auth` with key `"auth:" + ip`; on denial
respond 429 with `rateLimitHeaders`; otherwise delegate to NextAuth
(`delegateResp` abstracts the NextAuth handler's response). -/
def authPOST (store : RateLimitStore) (now : Nat) (forwarded : Option String)
    (delegateResp : HttpResponse) : AuthPostResult :=
  let ip := getClientIp forwarded
  let r := checkRateLimit store now ("auth:" ++ ip) RATE_LIMITS.auth
  if !r.1.success then
    ⟨⟨429, rateLimitHeaders r.1⟩, r.2, false⟩
  else
    ⟨delegateResp, r.2, true⟩

/-- The rate-limit key of the comments `POST` handler
(`src/app/api/comments/route.ts`, lines 80-84): `"comments:user:" + userId`
for an authenticated session, `"comments:ip:" + clientIp` otherwise. -/
def commentRateLimitKey (session : Option String) (clientIp : String) : String :=
  match session with
  | some userId => "comments:user:" ++ userId
  | none => "comments:ip:" ++ clientIp

/-- Outcome of the comments `POST` handler: the response, the updated store,
and whether a comment was created. -/
structure CommentsPostResult where
  resp : HttpResponse
  store : RateLimitStore
  created : Bool
deriving DecidableEq, Repr

/-- The `POST` handler of `src/app/api/comments/route.ts`: compute
`commentRateLimitKey`, rate limit under `RATE_LIMITS.comments`; on denial
respond 429 with `rateLimitHeaders` and create nothing. `rest` and
`restCreated` abstract the remainder of the handler (body parsing,
validation and `prisma.comment.create`, lines 94-207), which runs only
when the limiter allows the call. -/
def commentsPOST (store : RateLimitStore) (now : Nat) (session : Option String)
    (forwarded : Option String) (rest : HttpResponse) (restCreated : Bool) :
    CommentsPostResult :=
  let clientIp := getClientIp forwarded
  let r := checkRateLimit store now (commentRateLimitKey session clientIp)
    RATE_LIMITS.comments
  if !r.1.success then
    ⟨⟨429, rateLimitHeaders r.1⟩, r.2, false⟩
  else
    ⟨rest, r.2, restCreated⟩

/-- Outcome of the likes `POST` handler: the response, the updated store,
and whether a like was toggled. -/
structure LikesPostResult where
  resp : HttpResponse
  store : RateLimitStore
  toggled : Bool
deriving DecidableEq, Repr

/-- The `POST` handler of `src/app/api/likes/route.ts`: 401 without touching
the limiter when unauthenticated; otherwise rate limit by user id with key
`"likes:" + userId` under `RATE_LIMITS.likes`; on denial respond 429 with
`rateLimitHeaders` and toggle nothing. `rest` and `restToggled` abstract
the remainder of the handler (lines 29-95), which runs only when the
limiter allows the call. -/
def likesPOST (store : RateLimitStore) (now : Nat) (session : Option String)
    (rest : HttpResponse) (restToggled : Bool) : LikesPostResult :=
  match session with
  | none => ⟨⟨401, []⟩, store, false⟩
  | some userId =>
    let r := checkRateLimit store now ("likes:" ++ userId) RATE_LIMITS.likes
    if !r.1.success then
      ⟨⟨429, rateLimitHeaders r.1⟩, r.2, false⟩
    else
      ⟨rest, r.2, restToggled⟩

/-- C4: whenever `checkRateLimit` denies, the authentication handler
responds 429 with rate-limit headers and does not delegate to sign-in, the
comments handler responds 429 and creates no comment, and the likes handler
(for an authenticated session, the only case in which it consults the
limiter) responds 429 and toggles no like. -/
theorem handlers_respond_429_on_denial :
    (∀ (store : RateLimitStore) (now : Nat) (fwd : Option String) (d : HttpResponse),
      (checkRateLimit store now ("auth:" ++ getClientIp fwd) RATE_LIMITS.auth).1.success
          = false →
        (authPOST store now fwd d).resp.status = 429 ∧
        (authPOST store now fwd d).delegated = false ∧
        (authPOST store now fwd d).resp.headers =
          rateLimitHeaders
            (checkRateLimit store now ("auth:" ++ getClientIp fwd) RATE_LIMITS.auth).1) ∧
    (∀ (store : RateLimitStore) (now : Nat) (session : Option String)
        (fwd : Option String) (rest : HttpResponse) (rc : Bool),
      (checkRateLimit store now (commentRateLimitKey session (getClientIp fwd))
          RATE_LIMITS.comments).1.success = false →
        (commentsPOST store now session fwd rest rc).resp.status = 429 ∧
        (commentsPOST store now session fwd rest rc).created = false) ∧
    (∀ (store : RateLimitStore) (now : Nat) (userId : String)
        (rest : HttpResponse) (rt : Bool),
      (checkRateLimit store now ("likes:" ++ userId) RATE_LIMITS.likes).1.success
          = false →
        (likesPOST store now (some userId) rest rt).resp.status = 429 ∧
        (likesPOST store now (some userId) rest rt).toggled = false) := by
  refine ⟨?_, ?_, ?_⟩
  · intro store now fwd d h
    simp [authPOST, h]
  · intro store now session fwd rest rc h
    simp [commentsPOST, h]
  · intro store now userId rest rt h
    simp [likesPOST, h]

/-- Witness for C4: exhausted entries deny concrete requests on all three
handlers, each yielding a 429 and skipping the guarded operation. -/
theorem handlers_respond_429_on_denial_witness :
    ((authPOST [("auth:unknown", ⟨5, 0⟩)] 10 none ⟨200, []⟩).resp.status = 429 ∧
     (authPOST [("auth:unknown", ⟨5, 0⟩)] 10 none ⟨200, []⟩).delegated = false ∧
     (authPOST [("auth:unknown", ⟨5, 0⟩)] 10 none ⟨200, []⟩).resp.headers =
       rateLimitHeaders
         (checkRateLimit [("auth:unknown", ⟨5, 0⟩)] 10 ("auth:" ++ getClientIp none)
           RATE_LIMITS.auth).1) ∧
    ((commentsPOST [("comments:ip:unknown", ⟨10, 0⟩)] 10 none none ⟨201, []⟩ true).resp.status
        = 429 ∧
     (commentsPOST [("comments:ip:unknown", ⟨10, 0⟩)] 10 none none ⟨201, []⟩ true).created
        = false) ∧
    ((likesPOST [("likes:u1", ⟨30, 0⟩)] 10 (some "u1") ⟨200, []⟩ true).resp.status = 429 ∧
     (likesPOST [("likes:u1", ⟨30, 0⟩)] 10 (some "u1") ⟨200, []⟩ true).toggled = false) :=
  ⟨handlers_respond_429_on_denial.1 [("auth:unknown", ⟨5, 0⟩)] 10 none ⟨200, []⟩
     (by decide),
   handlers_respond_429_on_denial.2.1 [("comments:ip:unknown", ⟨10, 0⟩)] 10 none none
     ⟨201, []⟩ true (by decide),
   handlers_respond_429_on_denial.2.2 [("likes:u1", ⟨30, 0⟩)] 10 "u1" ⟨200, []⟩ true
     (by decide)⟩

/-- C7 counterexample: the authenticated comment key is
`"comments:user:" + userId`, not `"comments:" + userId` — a store entry that
exhausts the key `"comments:u1"` does not cause a denial for user `u1`. -/
theorem commentKey_not_plain_userId :
    commentRateLimitKey (some "u1") "unknown" ≠ "comments:" ++ "u1" ∧
    (commentsPOST [("comments:u1", ⟨10, 0⟩)] 0 (some "u1") none ⟨201, []⟩ true).resp.status
      ≠ 429 := by
  constructor
  · decide
  · decide

/-- C7 amended: the comments handler rate-limits with key
`"comments:user:" + userId` for an authenticated session and
`"comments:ip:" + clientIp` for an anonymous one, under
`RATE_LIMITS.comments`; a denial of `checkRateLimit` at exactly that key
makes the handler respond 429. -/
theorem commentRateLimitKey_spec :
    (∀ userId ip : String,
      commentRateLimitKey (some userId) ip = "comments:user:" ++ userId) ∧
    (∀ ip : String, commentRateLimitKey none ip = "comments:ip:" ++ ip) ∧
    (∀ (store : RateLimitStore) (now : Nat) (session : Option String)
        (fwd : Option String) (rest : HttpResponse) (rc : Bool),
      (checkRateLimit store now (commentRateLimitKey session (getClientIp fwd))
          RATE_LIMITS.comments).1.success = false →
        (commentsPOST store now session fwd rest rc).resp.status = 429) := by
  refine ⟨fun _ _ => rfl, fun _ => rfl, ?_⟩
  intro store now session fwd rest rc h
  simp [commentsPOST, h]

/-- Witness for C7's amended theorem: concrete keys for user `u1` and IP
`5.6.7.8`, and a concrete denied anonymous request answered 429. -/
theorem commentRateLimitKey_spec_witness :
    commentRateLimitKey (some "u1") "5.6.7.8" = "comments:user:" ++ "u1" ∧
    commentRateLimitKey none "5.6.7.8" = "comments:ip:" ++ "5.6.7.8" ∧
    (commentsPOST [("comments:ip:unknown", ⟨10, 5⟩)] 20 none none ⟨201, []⟩ true).resp.status
      = 429 :=
  ⟨commentRateLimitKey_spec.1 "u1" "5.6.7.8",
   commentRateLimitKey_spec.2.1 "5.6.7.8",
   commentRateLimitKey_spec.2.2 [("comments:ip:unknown", ⟨10, 5⟩)] 20 none none
     ⟨201, []⟩ true (by decide)⟩

/-- `VIEW_WINDOW` of `src/app/api/posts/[slug]/route.ts`: 24 hours in
milliseconds. -/
def VIEW_WINDOW : Nat := 24 * 60 * 60 * 1000

/-- The in-memory view tracker (`viewTracker` in
`src/app/api/posts/[slug]/route.ts`): IP hash to timestamp. -/
abbrev ViewTracker : Type := List (String × Nat)

/-- The hourly cleanup sweep of `src/app/api/posts/[slug]/route.ts`
(lines 12-19): delete every entry with `now - timestamp > VIEW_WINDOW`. -/
def sweepTracker (now : Nat) (m : ViewTracker) : ViewTracker :=
  m.filter (fun kv => decide (now - kv.2 ≤ VIEW_WINDOW))

/-- The post record fields the `GET` handler inspects: `id` (fed into the
view key), `published`, and the stored `views` counter. -/
structure PostRec where
  id : String
  published : Bool
  views : Nat
deriving DecidableEq, Repr

/-- Result of the `GET` handler: HTTP status, the post's stored view count
after the request (`none` when no post exists), and the tracker state. -/
structure GetResult where
  status : Nat
  dbViews : Option Nat
  tracker : ViewTracker
deriving DecidableEq, Repr

/-- The `GET` handler of `src/app/api/posts/[slug]/route.ts` (lines 22-128).
`post` is the result of the database lookup by slug; `isAdmin` is whether
the session's role is `ADMIN`; `hashFn` abstracts the truncated SHA-256
fingerprint, applied as in the source to the concatenation `ip ++ post.id`;
`dbOk` is whether `prisma.post.update` succeeds — on failure the `catch`
block answers 500, and `viewTracker.set` (which in the source runs only
after the awaited update) is never reached. The dedup test is
`viewTracker.has(ipHash)`: membership only, with no age check. -/
def getPostBySlug (hashFn : String → String) (post : Option PostRec) (isAdmin : Bool)
    (forwarded : Option String) (dbOk : Bool) (now : Nat) (tracker : ViewTracker) :
    GetResult :=
  match post with
  | none => ⟨404, none, tracker⟩
  | some p =>
    if !p.published && !isAdmin then ⟨404, some p.views, tracker⟩
    else
      let ip := getClientIp forwarded
      let ipHash := hashFn (ip ++ p.id)
      let hasViewed := (lookupE ipHash tracker).isSome
      if !hasViewed then
        if dbOk then ⟨200, some (p.views + 1), setE ipHash now tracker⟩
        else ⟨500, some p.views, tracker⟩
      else ⟨200, some p.views, tracker⟩

/-- A published (or admin-visible) post whose view key is already tracked is
served 200 with no increment and no tracker change. -/
theorem getPostBySlug_tracked (hashFn : String → String) (p : PostRec) (isAdmin : Bool)
    (fwd : Option String) (dbOk : Bool) (now : Nat) (tracker : ViewTracker)
    (hvis : (p.published || isAdmin) = true)
    (hview : (lookupE (hashFn (getClientIp fwd ++ p.id)) tracker).isSome = true) :
    getPostBySlug hashFn (some p) isAdmin fwd dbOk now tracker =
      ⟨200, some p.views, tracker⟩ := by
  have hnot : (!p.published && !isAdmin) = false := by
    cases hp : p.published <;> cases ha : isAdmin <;> simp_all
  simp [getPostBySlug, hnot, hview]

/-- Witness for C6: a tracked key (timestamp 50) is served 200 with the view
count and the tracker unchanged. -/
theorem getPostBySlug_tracked_witness :
    getPostBySlug (fun s => s) (some ⟨"p1", true, 3⟩) false none true 2000
        [("unknownp1", 50)] =
      ⟨200, some 3, [("unknownp1", 50)]⟩ :=
  getPostBySlug_tracked (fun s => s) ⟨"p1", true, 3⟩ false none true 2000
    [("unknownp1", 50)] (by decide) (by decide)

/-- If every value stored under key `k` fails the filter predicate, the key is
absent from the filtered list. -/
theorem lookupE_filter_none {β : Type} (k : String) (pred : String × β → Bool)
    (m : List (String × β))
    (h : ∀ v, (k, v) ∈ m → pred (k, v) = false) :
    lookupE k (m.filter pred) = none := by
  induction m with
  | nil => rfl
  | cons hd tl ih =>
    have ih' := ih (fun v hv => h v (List.mem_cons_of_mem hd hv))
    by_cases hk : hd.1 = k
    · have hEq : (k, hd.2) = hd := by rw [← hk]
      have hfalse : pred hd = false := by
        have hc := h hd.2 (by rw [hEq]; exact List.mem_cons_self hd tl)
        rw [hEq] at hc
        exact hc
      simp [List.filter_cons, hfalse, ih']
    · by_cases hp : pred hd = true
      · simp [List.filter_cons, hp, lookupE, hk, ih']
      · simp [List.filter_cons, hp, ih']

/-- C2 counterexample: the dedup window has fully elapsed
(`VIEW_WINDOW < now - lastSeenAt`), the sweep has not run, and the next view
attempt is still NOT credited — the handler checks only `viewTracker.has`,
never the entry's age: the view count stays 7 and the stale entry stays. -/
theorem view_expired_unswept_entry_denied :
    VIEW_WINDOW < (VIEW_WINDOW + 1000) - (0 : Nat) ∧
    getPostBySlug (fun s => s) (some ⟨"p1", true, 7⟩) false none true
        (VIEW_WINDOW + 1000) [("unknownp1", 0)] =
      ⟨200, some 7, [("unknownp1", 0)]⟩ :=
  ⟨by decide, by decide⟩

/-- C2 amended: once the dedup window has elapsed AND the hourly sweep has
subsequently run (physically removing the stale entry), the next view
attempt is credited again; the credit decision depends only on the key's
presence in the map, so physical eviction by the sweep — not an age check
at lookup — is what re-enables crediting. -/
theorem view_recredited_after_sweep (hashFn : String → String) (p : PostRec)
    (isAdmin : Bool) (fwd : Option String) (now tsweep t0 : Nat) (tracker : ViewTracker)
    (hvis : (p.published || isAdmin) = true)
    (hpresent : lookupE (hashFn (getClientIp fwd ++ p.id)) tracker = some t0)
    (hexp : ∀ t : Nat, (hashFn (getClientIp fwd ++ p.id), t) ∈ tracker →
      VIEW_WINDOW < tsweep - t) :
    getPostBySlug hashFn (some p) isAdmin fwd true now (sweepTracker tsweep tracker) =
      ⟨200, some (p.views + 1),
        setE (hashFn (getClientIp fwd ++ p.id)) now (sweepTracker tsweep tracker)⟩ := by
  have hnone : lookupE (hashFn (getClientIp fwd ++ p.id)) (sweepTracker tsweep tracker)
      = none := by
    simp only [sweepTracker]
    apply lookupE_filter_none
    intro v hv
    have hgt := hexp v hv
    simp only [decide_eq_false_iff_not]
    omega
  have hnot : (!p.published && !isAdmin) = false := by
    cases hp : p.published <;> cases ha : isAdmin <;> simp_all
  simp [getPostBySlug, hnot, hnone]

/-- Witness for C2's amended theorem: entry of age `VIEW_WINDOW + 1` is swept,
and the next attempt increments the stored count from 7 to 8. -/
theorem view_recredited_after_sweep_witness :
    getPostBySlug (fun s => s) (some ⟨"p1", true, 7⟩) false none true (VIEW_WINDOW + 2)
        (sweepTracker (VIEW_WINDOW + 1) [("unknownp1", 0)]) =
      ⟨200, some (7 + 1),
        setE ((fun s : String => s) (getClientIp none ++ "p1")) (VIEW_WINDOW + 2)
          (sweepTracker (VIEW_WINDOW + 1) [("unknownp1", 0)])⟩ :=
  view_recredited_after_sweep (fun s => s) ⟨"p1", true, 7⟩ false none
    (VIEW_WINDOW + 2) (VIEW_WINDOW + 1) 0 [("unknownp1", 0)]
    (by decide) (by decide)
    (by
      intro t ht
      simp only [List.mem_singleton, Prod.mk.injEq] at ht
      rw [ht.2]
      decide)

/-- C3 counterexample: the tracker key is `hash(ip ++ postId)`, so the
distinct pairs `("1.2.3.4", "5p")` and `("1.2.3.45", "p")` — different IP
and different post id — share one key: after the first pair is credited,
the second is denied (views stay 3), refuting independent crediting. -/
theorem view_dedup_not_independent :
    ("1.2.3.4" : String) ≠ "1.2.3.45" ∧ ("5p" : String) ≠ "p" ∧
    getPostBySlug (fun s => s) (some ⟨"5p", true, 0⟩) false (some "1.2.3.4") true
        1000 [] =
      ⟨200, some 1, [("1.2.3.45p", 1000)]⟩ ∧
    getPostBySlug (fun s => s) (some ⟨"p", true, 3⟩) false (some "1.2.3.45") true
        1010 [("1.2.3.45p", 1000)] =
      ⟨200, some 3, [("1.2.3.45p", 1000)]⟩ :=
  ⟨by decide, by decide, by decide, by decide⟩

/-- C3 amended (P5): an untracked pair is credited; an immediate repeat of
the same pair is not credited and leaves the tracker as it was; and a pair
whose derived key `hash(ip ++ postId)` differs from the first one is
credited independently. (Distinct pairs whose concatenation collides share
one dedup bucket.) -/
theorem view_dedup_idempotence (hashFn : String → String) (now : Nat)
    (tracker : ViewTracker) (p : PostRec) (fwd : Option String)
    (hvp : p.published = true)
    (h1 : lookupE (hashFn (getClientIp fwd ++ p.id)) tracker = none) :
    getPostBySlug hashFn (some p) false fwd true now tracker =
      ⟨200, some (p.views + 1),
        setE (hashFn (getClientIp fwd ++ p.id)) now tracker⟩ ∧
    (∀ (v2 now2 : Nat),
      getPostBySlug hashFn (some ⟨p.id, true, v2⟩) false fwd true now2
          (setE (hashFn (getClientIp fwd ++ p.id)) now tracker) =
        ⟨200, some v2, setE (hashFn (getClientIp fwd ++ p.id)) now tracker⟩) ∧
    (∀ (q : PostRec) (fwd2 : Option String) (now3 : Nat),
      q.published = true →
      hashFn (getClientIp fwd2 ++ q.id) ≠ hashFn (getClientIp fwd ++ p.id) →
      lookupE (hashFn (getClientIp fwd2 ++ q.id)) tracker = none →
      getPostBySlug hashFn (some q) false fwd2 true now3
          (setE (hashFn (getClientIp fwd ++ p.id)) now tracker) =
        ⟨200, some (q.views + 1),
          setE (hashFn (getClientIp fwd2 ++ q.id)) now3
            (setE (hashFn (getClientIp fwd ++ p.id)) now tracker)⟩) := by
  refine ⟨?_, ?_, ?_⟩
  · simp [getPostBySlug, hvp, h1]
  · intro v2 now2
    simp [getPostBySlug, lookupE_setE_self]
  · intro q fwd2 now3 hq hne hn2
    have hlk2 : lookupE (hashFn (getClientIp fwd2 ++ q.id))
        (setE (hashFn (getClientIp fwd ++ p.id)) now tracker) = none := by
      rw [lookupE_setE_ne _ _ _ _ hne]
      exact hn2
    simp [getPostBySlug, hq, hlk2]

/-- Witness for C3's amended theorem: pair `("unknown", "p1")` credited at
time 1000, denied on repeat at 1010, and pair `("unknown", "p2")` credited
independently at 1020. -/
theorem view_dedup_idempotence_witness :
    getPostBySlug (fun s => s) (some ⟨"p1", true, 0⟩) false none true 1000 [] =
      ⟨200, some (0 + 1),
        setE ((fun s : String => s) (getClientIp none ++ "p1")) 1000 []⟩ ∧
    getPostBySlug (fun s => s) (some ⟨"p1", true, 1⟩) false none true 1010
        (setE ((fun s : String => s) (getClientIp none ++ "p1")) 1000 []) =
      ⟨200, some 1,
        setE ((fun s : String => s) (getClientIp none ++ "p1")) 1000 []⟩ ∧
    getPostBySlug (fun s => s) (some ⟨"p2", true, 5⟩) false none true 1020
        (setE ((fun s : String => s) (getClientIp none ++ "p1")) 1000 []) =
      ⟨200, some (5 + 1),
        setE ((fun s : String => s) (getClientIp none ++ "p2")) 1020
          (setE ((fun s : String => s) (getClientIp none ++ "p1")) 1000 [])⟩ :=
  ⟨(view_dedup_idempotence (fun s => s) 1000 [] ⟨"p1", true, 0⟩ none rfl
      (by decide)).1,
   (view_dedup_idempotence (fun s => s) 1000 [] ⟨"p1", true, 0⟩ none rfl
      (by decide)).2.1 1 1010,
   (view_dedup_idempotence (fun s => s) 1000 [] ⟨"p1", true, 0⟩ none rfl
      (by decide)).2.2 ⟨"p2", true, 5⟩ none 1020 rfl (by decide) (by decide)⟩

/-- C5 counterexample: with an untracked pair, a failed database increment
(`dbOk = false`) answers 500 and leaves the pair NOT marked as viewed — the
tracker write happens only after a successful update, so the claim that the
credit is recorded before (or independently of) persistence is false. -/
theorem view_db_failure_leaves_pair_unmarked :
    (getPostBySlug (fun s => s) (some ⟨"p1", true, 7⟩) false none false 1000 []).status
      = 500 ∧
    lookupE ((fun s : String => s) (getClientIp none ++ "p1"))
        (getPostBySlug (fun s => s) (some ⟨"p1", true, 7⟩) false none false 1000
          []).tracker = none :=
  ⟨by decide, by decide⟩

/-- C5 amended: the tracker entry is written only after the database
increment succeeds — a failed write answers 500 with the tracker unchanged
(the pair stays uncredited and a later attempt retries), while a successful
write answers 200 and records the pair. -/
theorem view_tracker_written_after_db_success (hashFn : String → String)
    (p : PostRec) (fwd : Option String) (now : Nat) (tracker : ViewTracker)
    (hvp : p.published = true)
    (habs : lookupE (hashFn (getClientIp fwd ++ p.id)) tracker = none) :
    getPostBySlug hashFn (some p) false fwd false now tracker =
      ⟨500, some p.views, tracker⟩ ∧
    getPostBySlug hashFn (some p) false fwd true now tracker =
      ⟨200, some (p.views + 1),
        setE (hashFn (getClientIp fwd ++ p.id)) now tracker⟩ := by
  constructor
  · simp [getPostBySlug, hvp, habs]
  · simp [getPostBySlug, hvp, habs]

/-- Witness for C5's amended theorem: concrete failed write leaves the empty
tracker empty; concrete successful write records the pair. -/
theorem view_tracker_written_after_db_success_witness :
    getPostBySlug (fun s => s) (some ⟨"p1", true, 7⟩) false none false 1000 [] =
      ⟨500, some 7, []⟩ ∧
    getPostBySlug (fun s => s) (some ⟨"p1", true, 7⟩) false none true 1000 [] =
      ⟨200, some (7 + 1),
        setE ((fun s : String => s) (getClientIp none ++ "p1")) 1000 []⟩ :=
  view_tracker_written_after_db_success (fun s => s) ⟨"p1", true, 7⟩ none 1000 []
    rfl (by decide)

/-- C9: a missing post, or an unpublished post requested without an admin
session, is answered 404 with the stored view count and the tracker both
unchanged. -/
theorem getPost_notFound_no_effects (hashFn : String → String) (fwd : Option String)
    (dbOk : Bool) (now : Nat) (tracker : ViewTracker) :
    (∀ isAdmin : Bool,
      getPostBySlug hashFn none isAdmin fwd dbOk now tracker = ⟨404, none, tracker⟩) ∧
    (∀ p : PostRec, p.published = false →
      getPostBySlug hashFn (some p) false fwd dbOk now tracker =
        ⟨404, some p.views, tracker⟩) := by
  constructor
  · intro isAdmin; rfl
  · intro p hp; simp [getPostBySlug, hp]

/-- Witness for C9: concrete missing post and concrete unpublished post both
yield 404 with no state change. -/
theorem getPost_notFound_no_effects_witness :
    getPostBySlug (fun s => s) none true none true 1000 [("unknownp1", 50)] =
      ⟨404, none, [("unknownp1", 50)]⟩ ∧
    getPostBySlug (fun s => s) (some ⟨"p1", false, 5⟩) false none true 1000
        [("unknownp1", 50)] =
      ⟨404, some 5, [("unknownp1", 50)]⟩ :=
  ⟨(getPost_notFound_no_effects (fun s => s) none true 1000 [("unknownp1", 50)]).1 true,
   (getPost_notFound_no_effects (fun s => s) none true 1000 [("unknownp1", 50)]).2
     ⟨"p1", false, 5⟩ rfl⟩

/-- C10: for an admin session, an unpublished post is handled exactly as the
same post published (same status, same count, same tracker effect); in
particular a first view from an IP within 24 hours increments the stored
view counter of the draft. -/
theorem adminPreview_counts_views (hashFn : String → String) :
    (∀ (pid : String) (v : Nat) (fwd : Option String) (dbOk : Bool) (now : Nat)
        (tracker : ViewTracker),
      getPostBySlug hashFn (some ⟨pid, false, v⟩) true fwd dbOk now tracker =
        getPostBySlug hashFn (some ⟨pid, true, v⟩) false fwd dbOk now tracker) ∧
    (∀ (pid : String) (v : Nat) (fwd : Option String) (now : Nat)
        (tracker : ViewTracker),
      lookupE (hashFn (getClientIp fwd ++ pid)) tracker = none →
      getPostBySlug hashFn (some ⟨pid, false, v⟩) true fwd true now tracker =
        ⟨200, some (v + 1), setE (hashFn (getClientIp fwd ++ pid)) now tracker⟩) := by
  constructor
  · intro pid v fwd dbOk now tracker; rfl
  · intro pid v fwd now tracker habs
    simp [getPostBySlug, habs]

/-- Witness for C10: an admin preview of a concrete draft increments its
stored view count from 5 to 6. -/
theorem adminPreview_counts_views_witness :
    getPostBySlug (fun s => s) (some ⟨"p1", false, 5⟩) true none true 1000 [] =
      ⟨200, some (5 + 1),
        setE ((fun s : String => s) (getClientIp none ++ "p1")) 1000 []⟩ :=
  (adminPreview_counts_views (fun s => s)).2 "p1" 5 none 1000 [] (by decide)

end BlogPortal
